import Mathlib

/-!
Verification of the SIGA company-research agent (src/main.py, src/utils.py,
src/config_loader.py and the three provider adapters under src/ai_models/)
against its natural-language specification.

The Python source is shallowly embedded: pure computations become Lean
functions, the external collaborators (LLM backends, `json.loads`, the
scheduler deciding whether the worker thread finishes before the join
deadline, the filesystem, `uuid.uuid4`, `datetime.now`) become explicit
parameters, and Python exceptions become `Except` values.
-/

namespace Siga

/-- JSON-shaped values: the results of `json.loads` and the dictionaries the
adapters return. -/
inductive Json where
  | null : Json
  | bool (b : Bool) : Json
  | num (n : Int) : Json
  | str (s : String) : Json
  | arr (elems : List Json) : Json
  | obj (fields : List (String × Json)) : Json

/-- Key lookup on a JSON object (Python `d[k]` / `d.get(k)` on a dict);
returns `none` on non-objects and missing keys. -/
def Json.lookup : Json → String → Option Json
  | .obj fields, k => fields.lookup k
  | _, _ => none

/-- Python `str()` of a value as interpolated into the error messages of
src/main.py. The adapters only ever place string messages under the
"error" key, so only the atom cases are exercised by the development;
container renderings are abbreviated. -/
def Json.pyStr : Json → String
  | .str s => s
  | .num n => toString n
  | .bool true => "True"
  | .bool false => "False"
  | .null => "None"
  | .arr _ => ""
  | .obj _ => ""

/-- Whether `sub` occurs as a contiguous segment of `l`. -/
def infixOfList [BEq α] : List α → List α → Bool
  | sub, [] => sub.isEmpty
  | sub, b :: bs => sub.isPrefixOf (b :: bs) || infixOfList sub bs

/-- Python substring membership (the `in` operator on strings). -/
def pyInStr (sub s : String) : Bool :=
  infixOfList sub.toList s.toList

/-- Python membership test `k in v` on a JSON-shaped value: key membership on
dicts, element equality on lists, substring test on strings, and a
`TypeError` on non-container values, as in CPython. -/
def pyContains (k : String) : Json → Except String Bool
  | .obj fs => .ok (fs.any (fun kv => k == kv.1))
  | .arr xs => .ok (xs.any (fun x => match x with | .str s => s == k | _ => false))
  | .str s => .ok (pyInStr k s)
  | _ => .error "argument of type is not iterable"

/-- A Python exception as far as the embedding needs it: its kind and the
message `str(e)` renders. -/
inductive PyExn where
  | typeError (msg : String) : PyExn
  | valueError (msg : String) : PyExn
  | other (msg : String) : PyExn

/-- Python `str(e)` on an exception. -/
def PyExn.message : PyExn → String
  | .typeError m => m
  | .valueError m => m
  | .other m => m

/-- A bound Python method: its number of positional parameters after `self`,
and the body, which runs on exactly that many arguments. -/
structure PyMethod (α : Type) where
  paramCount : Nat
  body : List String → α

/-- Python positional-call semantics: a call whose argument count does not
match the parameter count of the callee raises `TypeError` before the body
runs (counts in the message include `self`, as CPython reports them). -/
def pyCall (methodName : String) (m : PyMethod α) (args : List String) : Except PyExn α :=
  if args.length = m.paramCount then
    .ok (m.body args)
  else
    .error (.typeError (methodName ++ "() takes " ++ toString (m.paramCount + 1)
      ++ " positional arguments but " ++ toString (args.length + 1) ++ " were given"))

/-! ### The hard-coded extraction prompt and system messages

All three adapters build the same user prompt from an f-string over the
company name (src/ai_models/openai_model.py lines 61-73,
google_ai_model.py lines 64-76, ollama_model.py lines 88-100).
Braces and apostrophes of the source text appear here as the escapes
\x7b, \x7d and \x27. -/

/-- The extraction prompt each adapter's `extract_company_info` builds from
the company name. -/
def extractionPrompt (company_name : String) : String :=
  "Based on your internal knowledge, provide the following information for "
    ++ company_name ++ ":\n"
    ++ "1. A list of its major direct and indirect subsidiaries globally, including their primary location (city, country).\n"
    ++ "2. Key financial information (e.g., latest reported annual revenue, net income, market capitalization) with an \x27as of\x27 date for each financial figure.\n"
    ++ "3. Any significant recent news or developments (last 1-2 years) related to its subsidiaries or major operations, with a brief summary and date.\n"
    ++ "Format the output as a JSON object with the following structure:\n"
    ++ "\x7b\"company_name\": \"" ++ company_name
    ++ "\", \"extracted_as_of_date\": \"YYYY-MM-DD (AI knowledge cutoff or current date)\",\n"
    ++ "\"subsidiaries\": [\x7b\"name\": \"Subsidiary Name\", \"location\": \"City, Country\"\x7d],\n"
    ++ "\"financial_info\": [\x7b\"metric\": \"Revenue\", \"value\": \"X billion USD\", \"as_of_date\": \"YYYY-MM-DD\"\x7d],\n"
    ++ "\"news_info\": [\x7b\"headline\": \"News Headline\", \"date\": \"YYYY-MM-DD\", \"summary\": \"Brief summary\"\x7d]\x7d.\n"
    ++ "Ensure all information is strictly from your training data and do not perform any external searches."

/-- The system message of `OpenAIModel.extract_company_info`
(src/ai_models/openai_model.py line 81). -/
def openaiSystemMessage : String :=
  "You are a highly knowledgeable and precise corporate research assistant. Provide information strictly from your training data and do not hallucinate or perform external searches. Focus on factual, verifiable data."

/-- The system message of `OllamaModel.extract_company_info`
(src/ai_models/ollama_model.py line 108). -/
def ollamaSystemMessage : String :=
  "You are a highly knowledgeable and precise corporate research assistant. Provide information strictly from your training data and do not hallucinate or perform external searches. Focus on factual, verifiable data. Respond only with the requested JSON object."

/-- One chat message of a backend request. -/
structure ChatMessage where
  role : String
  content : String

/-! ### Backend requests built by the adapters -/

/-- The request `OpenAIModel.extract_company_info` passes to
`client.chat.completions.create` (src/ai_models/openai_model.py lines
78-88). An `Option` field set to `none` records a keyword argument the
source does not pass: `n`, the candidate count, is omitted, which the
OpenAI API defaults to a single candidate. -/
structure OpenAIChatRequest where
  model : String
  messages : List ChatMessage
  temperature : Rat
  max_tokens : Nat
  response_format : Option String
  n : Option Nat

/-- Number of candidates the OpenAI API produces for a request: the `n`
parameter, defaulting to one when omitted. -/
def OpenAIChatRequest.effectiveCandidates (r : OpenAIChatRequest) : Nat :=
  r.n.getD 1

/-- The request builder of `OpenAIModel.extract_company_info`. -/
def openaiChatRequest (company_name model_name : String) : OpenAIChatRequest :=
  { model := model_name
    messages := [⟨"system", openaiSystemMessage⟩, ⟨"user", extractionPrompt company_name⟩]
    temperature := 0.1
    max_tokens := 1500
    response_format := some "json_object"
    n := none }

/-- The `GenerationConfig` `GoogleAIModel.extract_company_info` passes to
`model.generate_content` (src/ai_models/google_ai_model.py lines 79-83). -/
structure GoogleGenerationConfig where
  temperature : Rat
  candidate_count : Nat
  response_mime_type : String

/-- The request `GoogleAIModel.extract_company_info` issues
(src/ai_models/google_ai_model.py lines 62-84). -/
structure GoogleRequest where
  model : String
  prompt : String
  generation_config : GoogleGenerationConfig

/-- The request builder of `GoogleAIModel.extract_company_info`. -/
def googleGenerateRequest (company_name model_name : String) : GoogleRequest :=
  { model := model_name
    prompt := extractionPrompt company_name
    generation_config :=
      { temperature := 0.1
        candidate_count := 1
        response_mime_type := "application/json" } }

/-- The `options` object of the Ollama request
(src/ai_models/ollama_model.py lines 113-116). -/
structure OllamaOptions where
  temperature : Rat
  num_predict : Nat

/-- The JSON body `OllamaModel.extract_company_info` posts to `/api/chat`
(src/ai_models/ollama_model.py lines 105-117). The `format` field set to
`none` records that the source does not pass Ollama's optional
format-forcing parameter. -/
structure OllamaChatRequest where
  model : String
  messages : List ChatMessage
  stream : Bool
  options : OllamaOptions
  format : Option String

/-- The request builder of `OllamaModel.extract_company_info`. -/
def ollamaChatRequest (company_name model_name : String) : OllamaChatRequest :=
  { model := model_name
    messages := [⟨"system", ollamaSystemMessage⟩, ⟨"user", extractionPrompt company_name⟩]
    stream := false
    options := { temperature := 0.1, num_predict := 1500 }
    format := none }

/-! ### Adapter extraction bodies

An adapter's `extract_company_info` issues one backend request and parses
the textual response with `json.loads`. The backend and `json.loads` are
external: the backend is a function from the built request to an observed
result (one constructor per exception class the source catches), and
`parseJson` returns either the parsed value or the message of the raised
`json.JSONDecodeError`. Every exception branch of the source returns a
dictionary with an "error" key, so the bodies are total functions into
`Json`. -/

/-- Observed result of one `client.chat.completions.create` call. -/
inductive OpenAIBackendResult where
  | ok (raw_content : String) : OpenAIBackendResult
  | apiStatusError (status : Nat) (message : String) : OpenAIBackendResult
  | apiConnError (message : String) : OpenAIBackendResult
  | otherExn (message : String) : OpenAIBackendResult

/-- `OpenAIModel.extract_company_info` (src/ai_models/openai_model.py lines
52-107): two positional parameters, hard-coded prompt, one request, JSON
parse, every caught exception reclassified into an "error" dictionary. -/
def OpenAIModel.extract_company_info
    (parseJson : String → Except String Json)
    (backend : OpenAIChatRequest → OpenAIBackendResult)
    (company_name model_name : String) : Json :=
  match backend (openaiChatRequest company_name model_name) with
  | .ok raw =>
    match parseJson raw with
    | .ok d => d
    | .error e => .obj [("error", .str ("JSON parsing error: " ++ e))]
  | .apiStatusError status message =>
    .obj [("error", .str ("OpenAI API error: " ++ toString status ++ " - " ++ message))]
  | .apiConnError message =>
    .obj [("error", .str ("OpenAI API connection error: " ++ message))]
  | .otherExn message =>
    .obj [("error", .str ("Unexpected error: " ++ message))]

/-- Observed result of one `model.generate_content` call. -/
inductive GoogleBackendResult where
  | ok (raw_content : String) : GoogleBackendResult
  | valueError (message : String) : GoogleBackendResult
  | otherExn (message : String) : GoogleBackendResult

/-- `GoogleAIModel.extract_company_info` (src/ai_models/google_ai_model.py
lines 52-101). -/
def GoogleAIModel.extract_company_info
    (parseJson : String → Except String Json)
    (backend : GoogleRequest → GoogleBackendResult)
    (company_name model_name : String) : Json :=
  match backend (googleGenerateRequest company_name model_name) with
  | .ok raw =>
    match parseJson raw with
    | .ok d => d
    | .error e => .obj [("error", .str ("JSON parsing error: " ++ e))]
  | .valueError message =>
    .obj [("error", .str ("Google AI Model error: " ++ message))]
  | .otherExn message =>
    .obj [("error", .str ("Unexpected error: " ++ message))]

/-- Observed result of one `_make_api_request("/api/chat", ...)` call
(src/ai_models/ollama_model.py lines 31-53): the parsed response body, or
one of the exceptions `_make_api_request` raises. -/
inductive OllamaApiResult where
  | ok (response : Json) : OllamaApiResult
  | connError (message : String) : OllamaApiResult
  | timeoutError (message : String) : OllamaApiResult
  | runtimeError (message : String) : OllamaApiResult
  | invalidJson (message : String) : OllamaApiResult

/-- `response_data.get("message", \x7b\x7d).get("content", "")`
(src/ai_models/ollama_model.py line 119); string-typed contents are the
modeled case. -/
def ollamaRawContent (response : Json) : String :=
  match response.lookup "message" with
  | some m =>
    match m.lookup "content" with
    | some (.str s) => s
    | _ => ""
  | none => ""

/-- `OllamaModel.extract_company_info` (src/ai_models/ollama_model.py lines
76-133). `ConnectionError`, `TimeoutError` and `RuntimeError` from the
transport helper share one handler; the `ValueError` it raises on a
body that is not JSON falls to the generic `except Exception` branch. -/
def OllamaModel.extract_company_info
    (parseJson : String → Except String Json)
    (backend : OllamaChatRequest → OllamaApiResult)
    (company_name model_name : String) : Json :=
  match backend (ollamaChatRequest company_name model_name) with
  | .ok response =>
    match parseJson (ollamaRawContent response) with
    | .ok d => d
    | .error e => .obj [("error", .str ("JSON parsing error: " ++ e))]
  | .connError message =>
    .obj [("error", .str ("Ollama API communication error: " ++ message))]
  | .timeoutError message =>
    .obj [("error", .str ("Ollama API communication error: " ++ message))]
  | .runtimeError message =>
    .obj [("error", .str ("Ollama API communication error: " ++ message))]
  | .invalidJson message =>
    .obj [("error", .str ("Unexpected error: " ++ message))]

/-! ### Listing available models -/

/-- Python `sorted(list(set(xs)))` on strings: the distinct elements of `xs`
in increasing lexicographic order. Since the deduplicated elements are
pairwise distinct, any correct sort produces the same list, so insertion
sort stands in for CPython's sort. -/
def pySortedSet (xs : List String) : List String :=
  xs.dedup.insertionSort (· ≤ ·)

/-- Observed result of one `client.models.list()` call. -/
inductive OpenAIListResult where
  | ok (model_ids : List String) : OpenAIListResult
  | authError : OpenAIListResult
  | apiConnError (message : String) : OpenAIListResult
  | otherExn (message : String) : OpenAIListResult

/-- `OpenAIModel.list_available_models` (src/ai_models/openai_model.py lines
24-50): ids filtered by substring heuristics; every caught exception leaves
the accumulator empty; the result is deduplicated and sorted. -/
def OpenAIModel.list_available_models (backend : OpenAIListResult) : List String :=
  let available_model_ids :=
    match backend with
    | .ok ids => ids.filter (fun i =>
        pyInStr "gpt" i || pyInStr "davinci" i || pyInStr "babbage" i
          || pyInStr "curie" i || pyInStr "ada" i)
    | .authError => []
    | .apiConnError _ => []
    | .otherExn _ => []
  pySortedSet available_model_ids

/-- One entry of `genai.list_models()`. -/
structure GoogleModelInfo where
  name : String
  supported_generation_methods : List String

/-- The per-entry filter of `GoogleAIModel.list_available_models`
(src/ai_models/google_ai_model.py lines 38-39). -/
def googleModelFilter (m : GoogleModelInfo) : Bool :=
  m.supported_generation_methods.contains "generateContent"
    && (pyInStr "gemini" m.name || pyInStr "text-bison" m.name)

/-- Observed behavior of one `genai.list_models()` iteration. The listing
is a lazy paginated generator consumed inside the `try` block: either it
yields all its entries and completes, or it yields some prefix of entries
and then raises, in which case the names accumulated from the
already-yielded entries survive into the `except` branch. -/
inductive GoogleListResult where
  | ok (models : List GoogleModelInfo) : GoogleListResult
  | exn (yielded : List GoogleModelInfo) (message : String) : GoogleListResult

/-- `GoogleAIModel.list_available_models` (src/ai_models/google_ai_model.py
lines 24-46): the accumulation loop runs inside the `try`, so an exception
raised mid-listing keeps the names accumulated so far, and the final
`return sorted(list(set(...)))` applies to them; the accumulator is empty
only when the listing raised before yielding any entry. -/
def GoogleAIModel.list_available_models (backend : GoogleListResult) : List String :=
  let available_model_ids :=
    match backend with
    | .ok models => (models.filter googleModelFilter).map (fun m => m.name)
    | .exn yielded _ => (yielded.filter googleModelFilter).map (fun m => m.name)
  pySortedSet available_model_ids

/-- Observed result of one `_make_api_request("/api/tags")` call. -/
inductive OllamaListResult where
  | ok (data : Json) : OllamaListResult
  | exn (message : String) : OllamaListResult

/-- `OllamaModel.list_available_models` (src/ai_models/ollama_model.py lines
55-74): base names (before the colon) of the entries under "models" that
carry a "name" key; string-typed names are the modeled case. -/
def OllamaModel.list_available_models (backend : OllamaListResult) : List String :=
  let available_model_names :=
    match backend with
    | .ok data =>
      match data.lookup "models" with
      | some (.arr models) =>
        models.filterMap (fun mi =>
          match mi.lookup "name" with
          | some (.str n) => some ((n.splitOn ":").headD n)
          | _ => none)
      | _ => []
    | .exn _ => []
  pySortedSet available_model_names

/-! ### Configuration loading and adapter construction -/

/-- One prompt template entry of config/prompts.json; `none` fields model
missing keys, for which the source's `.get` calls substitute defaults. -/
structure PromptData where
  user_template : Option String
  system_message : Option String
  description : Option String

/-- The result container one extraction allocates
(src/main.py line 250, initial value). -/
structure ResultContainer where
  data : Json
  error : Option String
  completed : Bool

/-- `_run_extraction_in_thread` (src/main.py lines 214-228): stores the call
result, or the `str()` of any raised exception, into the container; the
`finally` block always sets `completed`. -/
def run_extraction_in_thread (call : Except PyExn Json) : ResultContainer :=
  match call with
  | .ok extracted_data => { data := extracted_data, error := none, completed := true }
  | .error e => { data := .obj [], error := some e.message, completed := true }

/-- Container state when the main thread inspects it after
`thread.join(timeout=timeout_seconds)` (src/main.py line 256): the worker's
writes if it finished before the deadline, else the initial state. -/
def joinedContainer (call : Except PyExn Json) (finishedInTime : Bool) : ResultContainer :=
  if finishedInTime then run_extraction_in_thread call
  else { data := .obj [], error := none, completed := false }

/-- The positional arguments `_run_extraction_in_thread` passes to
`ai_instance.extract_company_info` (src/main.py lines 218-223). -/
def extractCallArgs (company_name model_name : String) (prompt_data : PromptData) :
    List String :=
  [company_name, model_name, prompt_data.user_template.getD "",
    prompt_data.system_message.getD ""]

/-- The three adapter variants with their external collaborators
(`json.loads` and the backend service). -/
inductive AdapterBehavior where
  | openai (parseJson : String → Except String Json)
      (backend : OpenAIChatRequest → OpenAIBackendResult) : AdapterBehavior
  | google_ai (parseJson : String → Except String Json)
      (backend : GoogleRequest → GoogleBackendResult) : AdapterBehavior
  | ollama (parseJson : String → Except String Json)
      (backend : OllamaChatRequest → OllamaApiResult) : AdapterBehavior

/-- `extract_company_info` as the Python callable each adapter exposes: every
variant is defined with exactly two positional parameters after `self`
(`company_name`, `model_name`), as is the abstract method of the base
class (src/ai_models/base.py line 34). -/
def extractMethod : AdapterBehavior → PyMethod Json
  | .openai parseJson backend =>
    { paramCount := 2
      body := fun args =>
        OpenAIModel.extract_company_info parseJson backend
          (args.headD "") ((args.drop 1).headD "") }
  | .google_ai parseJson backend =>
    { paramCount := 2
      body := fun args =>
        GoogleAIModel.extract_company_info parseJson backend
          (args.headD "") ((args.drop 1).headD "") }
  | .ollama parseJson backend =>
    { paramCount := 2
      body := fun args =>
        OllamaModel.extract_company_info parseJson backend
          (args.headD "") ((args.drop 1).headD "") }

/-- The adapter-method invocation `_run_extraction_in_thread` performs: the
four arguments of src/main.py lines 218-223 against the two-parameter
methods of the adapters. -/
def actualExtractCall (a : AdapterBehavior) (company_name model_name : String)
    (prompt_data : PromptData) : Except PyExn Json :=
  pyCall "extract_company_info" (extractMethod a)
    (extractCallArgs company_name model_name prompt_data)

/-! ### Persisting outcomes -/

/-- Filename sanitization of `_save_raw_json_output` (src/main.py line 191):
keep alphanumerics, spaces, dots and underscores, strip trailing
whitespace, replace spaces with underscores. -/
def sanitizeCompanyName (company_name : String) : String :=
  (((company_name.toList.filter
      (fun c => c.isAlphanum || c == ' ' || c == '.' || c == '_')).asString).trimRight).replace " " "_"

/-- The file path `_save_raw_json_output` computes (src/main.py lines
189-193). -/
def savedJsonPath (output_dir company_name run_id timestamp : String) : String :=
  output_dir ++ "/" ++ sanitizeCompanyName company_name ++ "_" ++ run_id ++ "_"
    ++ timestamp ++ ".json"

/-- `_save_raw_json_output` (src/main.py lines 171-211): writes the record
file and returns its path, or `None` when the write fails (`write_ok` is
the filesystem's verdict on the `open`/`json.dump` block). -/
def save_raw_json_output (output_dir company_name run_id timestamp : String)
    (write_ok : Bool) : Option String :=
  if write_ok then some (savedJsonPath output_dir company_name run_id timestamp)
  else none

/-- The "Run Summary" row `_write_to_excel` appends (src/main.py lines
91-103), restricted to the columns the claims are about; the three count
columns are derived from the same `data` argument and carry no control
flow. -/
structure SummaryRow where
  run_id : String
  company_name : Json
  ai_model_chosen : String
  prompt_used : String
  error : String
  json_output_file : String

/-- Construction of the summary row (src/main.py lines 84-103): a falsy
`run_id` is replaced by a fresh `uuid.uuid4()` (`fresh_uuid`), a missing
error message and a missing JSON path become empty cells. -/
def makeSummaryRow (data : Json) (ai_model_chosen prompt_used : String)
    (error_message : Option String) (run_id fresh_uuid : String)
    (json_output_file : Option String) : SummaryRow :=
  { run_id := if run_id = "" then fresh_uuid else run_id
    company_name := (data.lookup "company_name").getD (.str "")
    ai_model_chosen := ai_model_chosen
    prompt_used := prompt_used
    error := error_message.getD ""
    json_output_file := json_output_file.getD "" }

/-! ### Single-company processing (src/main.py lines 230-281) -/

/-- The timeout message of src/main.py line 261. -/
def timeoutMessage (company_name : String) (timeout_seconds : Nat) : String :=
  "Processing for \x27" ++ company_name ++ "\x27 timed out after "
    ++ toString timeout_seconds ++ " seconds."

/-- The reclassification message of src/main.py line 265. -/
def extractionErrorMessage (company_name err : String) : String :=
  "Error during AI extraction for \x27" ++ company_name ++ "\x27: " ++ err

/-- The model-reported-error message of src/main.py line 271. -/
def modelErrorMessage (company_name : String) (errValue : Json) : String :=
  "AI model returned an error for \x27" ++ company_name ++ "\x27: " ++ errValue.pyStr

/-- The prompt-version-missing message of src/main.py line 242. -/
def promptMissingMessage (prompt_version : String) : String :=
  "Prompt version \x27" ++ prompt_version
    ++ "\x27 not found in prompts.json. Skipping company."

/-- `prompt_used_text` (src/main.py line 248): the user template with the
placeholder replaced by the company name. -/
def prompt_used_text (prompt_data : PromptData) (company_name : String) : String :=
  (prompt_data.user_template.getD "").replace "[COMPANY_PLACEHOLDER]" company_name

/-- The `\x7b"company_name": company_name\x7d` dictionary the error branches
substitute for extracted data (src/main.py lines 263, 267). -/
def companyOnlyData (company_name : String) : Json :=
  .obj [("company_name", .str company_name)]

/-- What one call of `process_single_company` records. -/
structure ProcessResult where
  error_message : Option String
  extracted_data : Json
  json_output_file : Option String
  summary_row : SummaryRow

/-- `process_single_company` (src/main.py lines 230-281). Returns the
recorded outcome, or the exception the body would raise — the only raise
site left unguarded by the source is the `"error" in extracted_data`
membership test, which is a `TypeError` when the forwarded data is not a
container. Parameters after `finishedInTime` are the remaining external
inputs: the run id, the `datetime.now` filename stamp, the `uuid.uuid4`
fallback of the Excel writer, the JSON output directory and the
filesystem's verdict on the record-file write. -/
def process_single_company (company_name model_name : String)
    (prompt_data : Option PromptData) (prompt_version : String)
    (timeout_seconds : Nat) (call : Except PyExn Json) (finishedInTime : Bool)
    (run_id timestamp fresh_uuid output_dir : String) (write_ok : Bool) :
    Except String ProcessResult :=
  match prompt_data with
  | none =>
    let msg := promptMissingMessage prompt_version
    .ok { error_message := some msg
          extracted_data := companyOnlyData company_name
          json_output_file := none
          summary_row := makeSummaryRow (companyOnlyData company_name) model_name
            prompt_version (some msg) run_id fresh_uuid none }
  | some pd =>
    let prompt_used := prompt_used_text pd company_name
    let rc := joinedContainer call finishedInTime
    if rc.completed = false then
      let msg := timeoutMessage company_name timeout_seconds
      .ok { error_message := some msg
            extracted_data := companyOnlyData company_name
            json_output_file := none
            summary_row := makeSummaryRow (companyOnlyData company_name) model_name
              prompt_used (some msg) run_id fresh_uuid none }
    else
      match rc.error with
      | some err =>
        let msg := extractionErrorMessage company_name err
        .ok { error_message := some msg
              extracted_data := companyOnlyData company_name
              json_output_file := none
              summary_row := makeSummaryRow (companyOnlyData company_name) model_name
                prompt_used (some msg) run_id fresh_uuid none }
      | none =>
        let extracted_data := rc.data
        match pyContains "error" extracted_data with
        | .error e => .error e
        | .ok hasErr =>
          let msg? := if hasErr then
              some (modelErrorMessage company_name
                ((extracted_data.lookup "error").getD .null))
            else none
          let path? := save_raw_json_output output_dir company_name run_id timestamp
            write_ok
          .ok { error_message := msg?
                extracted_data := extracted_data
                json_output_file := path?
                summary_row := makeSummaryRow extracted_data model_name prompt_used
                  msg? run_id fresh_uuid path? }

/-! ### Batch orchestration -/

/-- `read_companies_from_csv` (src/utils.py lines 9-44): the first-column
cells as strings, stripped of surrounding whitespace, blank entries
dropped. -/
def read_companies_from_csv (first_column : List String) : List String :=
  (first_column.map String.trim).filter (fun s => s != "")

/-- The warning of src/main.py line 530. -/
def skipWarning : String :=
  "Skipping empty company name found in CSV."

/-- The company batch loop of `main` (src/main.py lines 526-530): each
truthy (non-empty) company name is processed and its outcome recorded in
input order; a falsy name is skipped with a logged warning; an exception
out of `process_single_company` would abort the whole loop. Returns the
recorded `(company, outcome)` pairs and the warnings logged, or the first
escaping exception. -/
def batchRun (proc : String → Except String ProcessResult) :
    List String → Except String (List (String × ProcessResult) × List String)
  | [] => .ok ([], [])
  | company_name :: rest =>
    if company_name != "" then
      match proc company_name with
      | .error e => .error e
      | .ok r =>
        match batchRun proc rest with
        | .error e => .error e
        | .ok (outs, warns) => .ok ((company_name, r) :: outs, warns)
    else
      match batchRun proc rest with
      | .error e => .error e
      | .ok (outs, warns) => .ok (outs, skipWarning :: warns)

/-- One invocation's per-company processing as `main` wires it up
(src/main.py lines 519-528): a single `run_id` for the whole invocation,
the adapter instance and prompt data fixed, the per-company external
inputs (scheduler verdict, timestamp, fresh uuid, write verdict) drawn
from the company name. -/
def programProc (a : AdapterBehavior) (model_name : String) (pd : PromptData)
    (prompt_version : String) (timeout_seconds : Nat) (run_id : String)
    (sched : String → Bool) (timestamp fresh_uuid : String → String)
    (output_dir : String) (write_ok : String → Bool) :
    String → Except String ProcessResult :=
  fun company_name =>
    process_single_company company_name model_name (some pd) prompt_version
      timeout_seconds (actualExtractCall a company_name model_name pd)
      (sched company_name) run_id (timestamp company_name) (fresh_uuid company_name)
      output_dir (write_ok company_name)

/-! ### Concrete instances used by witnesses -/

/-- The `TypeError` message Python produces for the four-argument call
against the two-parameter `extract_company_info` methods (argument counts
include `self`). -/
def extractArityErrorMessage : String :=
  "extract_company_info() takes 3 positional arguments but 5 were given"

/-- A mid-pagination listing failure: `genai.list_models()` yielded one
chat-capable Gemini entry and then raised a transport error. -/
def partialGoogleListingFailure : GoogleListResult :=
  .exn [{ name := "models/gemini-pro"
          supported_generation_methods := ["generateContent"] }]
    "503 failed to fetch the next page of models"

/-- A `json.loads` behavior that rejects every input. -/
def sampleParse : String → Except String Json :=
  fun _ => .error "Expecting value: line 1 column 1 (char 0)"

/-- A backend returning a non-JSON textual response. -/
def sampleOpenAIBackend : OpenAIChatRequest → OpenAIBackendResult :=
  fun _ => .ok "This response is not JSON"

/-- A concrete adapter behavior for witnesses. -/
def sampleBehavior : AdapterBehavior :=
  .openai sampleParse sampleOpenAIBackend

/-- A concrete prompt template for witnesses. -/
def samplePrompt : PromptData :=
  { user_template := some "Research [COMPANY_PLACEHOLDER]."
    system_message := some "You are an analyst."
    description := none }

/-- The per-company processing of a concrete invocation, for witnesses. -/
def sampleProc : String → Except String ProcessResult :=
  programProc sampleBehavior "gpt-4o" samplePrompt "subsidiary_research_v1" 60
    "run-1" (fun _ => true) (fun _ => "20260101_000000") (fun _ => "fresh-uuid")
    "data/json_outputs" (fun _ => true)

/-! ## Helper lemmas -/

theorem pySortedSet_sorted (xs : List String) :
    (pySortedSet xs).Sorted (· ≤ ·) :=
  List.sorted_insertionSort _ _

theorem pySortedSet_nodup (xs : List String) : (pySortedSet xs).Nodup :=
  (List.perm_insertionSort _ _).symm.nodup (List.nodup_dedup xs)

theorem any_key_eq_lookup_isSome (k : String) (fields : List (String × Json)) :
    (fields.any (fun kv => k == kv.1)) = (fields.lookup k).isSome := by
  induction fields with
  | nil => rfl
  | cons kv rest ih =>
    simp only [List.any_cons, List.lookup]
    cases h : k == kv.1 with
    | true => simp [h]
    | false => simp [h, ih]

theorem actualExtractCall_eq (a : AdapterBehavior)
    (company_name model_name : String) (pd : PromptData) :
    actualExtractCall a company_name model_name pd =
      .error (.typeError extractArityErrorMessage) := by
  cases a <;> with_unfolding_all rfl

theorem process_error_call_isOk (company_name model_name : String)
    (prompt_data : Option PromptData) (prompt_version : String)
    (timeout_seconds : Nat) (e : PyExn) (finishedInTime : Bool)
    (run_id timestamp fresh_uuid output_dir : String) (write_ok : Bool) :
    (process_single_company company_name model_name prompt_data prompt_version
      timeout_seconds (.error e) finishedInTime run_id timestamp fresh_uuid
      output_dir write_ok).isOk = true := by
  cases prompt_data <;> cases finishedInTime <;> rfl

theorem process_summary_run_id (company_name model_name : String)
    (prompt_data : Option PromptData) (prompt_version : String)
    (timeout_seconds : Nat) (call : Except PyExn Json) (finishedInTime : Bool)
    (run_id timestamp fresh_uuid output_dir : String) (write_ok : Bool)
    (r : ProcessResult)
    (h : process_single_company company_name model_name prompt_data prompt_version
      timeout_seconds call finishedInTime run_id timestamp fresh_uuid output_dir
      write_ok = .ok r) :
    r.summary_row.run_id = if run_id = "" then fresh_uuid else run_id := by
  unfold process_single_company at h
  cases prompt_data with
  | none => cases h; rfl
  | some pd =>
    simp only at h
    split at h
    · cases h; rfl
    · split at h
      · cases h; rfl
      · split at h
        · cases h
        · cases h; rfl

theorem batchRun_ok_of_all_ok (proc : String → Except String ProcessResult)
    (hall : ∀ c, (proc c).isOk = true) (cs : List String) :
    ∃ outs warns, batchRun proc cs = .ok (outs, warns) ∧
      outs.map Prod.fst = cs.filter (fun c => c != "") ∧
      warns.length = (cs.filter (fun c => c == "")).length := by
  induction cs with
  | nil => exact ⟨[], [], rfl, rfl, rfl⟩
  | cons c rest ih =>
    obtain ⟨outs, warns, h1, h2, h3⟩ := ih
    by_cases hc : c = ""
    · subst hc
      refine ⟨outs, skipWarning :: warns, ?_, ?_, ?_⟩
      · simp [batchRun, h1]
      · simpa using h2
      · simp [List.filter_cons, h3]
    · have hc' : (c != "") = true := by simp [hc]
      have hok := hall c
      cases hpc : proc c with
      | error e => rw [hpc] at hok; simp [Except.isOk, Except.toBool] at hok
      | ok r =>
        refine ⟨(c, r) :: outs, warns, ?_, ?_, ?_⟩
        · simp [batchRun, hc', hpc, h1]
        · simp [List.filter_cons, hc', h2]
        · have hbeq : (c == "") = false := by simp [hc]
          simp [List.filter_cons, hbeq, h3]

theorem batchRun_mem_ok (proc : String → Except String ProcessResult) :
    ∀ (cs : List String) outs warns, batchRun proc cs = .ok (outs, warns) →
      ∀ o ∈ outs, proc o.1 = .ok o.2 := by
  intro cs
  induction cs with
  | nil =>
    intro outs warns h o ho
    cases h
    simp at ho
  | cons c rest ih =>
    intro outs warns h o ho
    by_cases hc : (c != "") = true
    · cases hpc : proc c with
      | error e =>
        simp only [batchRun, if_pos hc, hpc] at h
        cases h
      | ok r =>
        cases hrest : batchRun proc rest with
        | error e =>
          simp only [batchRun, if_pos hc, hpc, hrest] at h
          cases h
        | ok p =>
          obtain ⟨outs', warns'⟩ := p
          simp only [batchRun, if_pos hc, hpc, hrest] at h
          cases h
          rcases List.mem_cons.mp ho with rfl | ho'
          · exact hpc
          · exact ih _ _ hrest o ho'
    · cases hrest : batchRun proc rest with
      | error e =>
        simp only [batchRun, if_neg hc, hrest] at h
        cases h
      | ok p =>
        obtain ⟨outs', warns'⟩ := p
        simp only [batchRun, if_neg hc, hrest] at h
        cases h
        exact ih _ _ hrest o ho

/-! ## Claim theorems -/

/-- C2: the claim states that `extract` accepts four arguments
(company_name, model_name, user_template, system_text) and substitutes the
company name into the placeholder of `user_template`. On the code this
fails: every adapter (and the abstract base class) defines
`extract_company_info` with two positional parameters, while
`_run_extraction_in_thread` passes four, so for every adapter variant and
every input the call raises `TypeError` before any backend request is
issued — the result is independent of the backend and of `json.loads` —
and the thread wrapper records the `TypeError` message as the extraction
error. -/
theorem extract_call_arity_mismatch (a : AdapterBehavior)
    (company_name model_name : String) (pd : PromptData) :
    actualExtractCall a company_name model_name pd =
      .error (.typeError extractArityErrorMessage) ∧
    run_extraction_in_thread (actualExtractCall a company_name model_name pd) =
      { data := .obj []
        error := some extractArityErrorMessage
        completed := true } ∧
    (∀ a' : AdapterBehavior,
      actualExtractCall a company_name model_name pd =
        actualExtractCall a' company_name model_name pd) := by
  refine ⟨actualExtractCall_eq a company_name model_name pd, ?_, ?_⟩
  · rw [actualExtractCall_eq]
    rfl
  · intro a'
    rw [actualExtractCall_eq, actualExtractCall_eq]

/-- C5 counterexample: the claim says every adapter variant returns an
empty sequence on any transport failure; but the Google listing is a lazy
paginated generator iterated inside the `try`, so a transport failure
raised after one Gemini entry was yielded returns that entry — a
non-empty sequence. -/
theorem google_list_nonempty_on_midlisting_failure :
    GoogleAIModel.list_available_models partialGoogleListingFailure =
      ["models/gemini-pro"] := by
  with_unfolding_all rfl

/-- C5 (amended): for every adapter variant, `list_available_models`
returns a deduplicated, sorted sequence and never raises (the bodies are
total). On a caught transport or authentication failure the OpenAI and
Ollama variants return the empty sequence, since their listing call
raises before anything is accumulated; the Google variant returns the
deduplicated, sorted names accumulated from the entries its lazy listing
yielded before the failure — the empty sequence exactly when the listing
raised before yielding any model. -/
theorem list_available_models_sorted_dedup_failure_modes :
    (∀ b : OpenAIListResult,
      (OpenAIModel.list_available_models b).Sorted (· ≤ ·) ∧
      (OpenAIModel.list_available_models b).Nodup) ∧
    (∀ b : GoogleListResult,
      (GoogleAIModel.list_available_models b).Sorted (· ≤ ·) ∧
      (GoogleAIModel.list_available_models b).Nodup) ∧
    (∀ b : OllamaListResult,
      (OllamaModel.list_available_models b).Sorted (· ≤ ·) ∧
      (OllamaModel.list_available_models b).Nodup) ∧
    (OpenAIModel.list_available_models .authError = []) ∧
    (∀ m, OpenAIModel.list_available_models (.apiConnError m) = []) ∧
    (∀ m, OpenAIModel.list_available_models (.otherExn m) = []) ∧
    (∀ m, OllamaModel.list_available_models (.exn m) = []) ∧
    (∀ m, GoogleAIModel.list_available_models (.exn [] m) = []) ∧
    (∀ yielded m, GoogleAIModel.list_available_models (.exn yielded m) =
      GoogleAIModel.list_available_models (.ok yielded)) := by
  refine ⟨fun b => ⟨pySortedSet_sorted _, pySortedSet_nodup _⟩,
    fun b => ⟨pySortedSet_sorted _, pySortedSet_nodup _⟩,
    fun b => ⟨pySortedSet_sorted _, pySortedSet_nodup _⟩,
    rfl, fun m => rfl, fun m => rfl, fun m => rfl, fun m => rfl,
    fun yielded m => rfl⟩

set_option maxRecDepth 4000 in
/-- C8: for every adapter variant and every company and model name, the
backend request built by `extract_company_info` carries the sampling
controls of the source: temperature 0.1 for all three variants; a single
candidate (`candidate_count = 1` explicitly for Google, `n` omitted hence
the API default of one candidate for OpenAI, a single non-streamed chat
response for Ollama); and a JSON-object output directive (the
`json_object` response format for OpenAI, the `application/json` response
MIME type for Google, and for Ollama — whose protocol-level `format`
parameter the source does not set — the instruction "Respond only with the
requested JSON object" inside the request's system message). -/
theorem extract_request_sampling_controls (company_name model_name : String) :
    ((openaiChatRequest company_name model_name).temperature = 0.1 ∧
      (openaiChatRequest company_name model_name).n = none ∧
      (openaiChatRequest company_name model_name).effectiveCandidates = 1 ∧
      (openaiChatRequest company_name model_name).response_format =
        some "json_object") ∧
    ((googleGenerateRequest company_name model_name).generation_config.temperature
        = 0.1 ∧
      (googleGenerateRequest company_name model_name).generation_config.candidate_count
        = 1 ∧
      (googleGenerateRequest company_name model_name).generation_config.response_mime_type
        = "application/json") ∧
    ((ollamaChatRequest company_name model_name).options.temperature = 0.1 ∧
      (ollamaChatRequest company_name model_name).stream = false ∧
      (ollamaChatRequest company_name model_name).format = none ∧
      pyInStr "Respond only with the requested JSON object."
        (((ollamaChatRequest company_name model_name).messages.headD
          ⟨"", ""⟩).content) = true) ∧
    (openaiChatRequest company_name model_name).temperature ≤ 1/4 := by
  refine ⟨⟨rfl, rfl, rfl, rfl⟩, ⟨rfl, rfl, rfl⟩, ⟨rfl, rfl, rfl, ?_⟩, ?_⟩
  · show pyInStr "Respond only with the requested JSON object." ollamaSystemMessage = true
    rfl
  · show (0.1 : Rat) ≤ 1/4
    norm_num

/-- C3: classification by the bounded extraction runner. If the worker has
not completed when the join deadline elapses, the recorded outcome is the
timeout outcome carrying exactly `timeout_seconds`; if the call finished
and the thread wrapper caught an exception, the outcome is the provider
error carrying the exception message; if the call finished normally with a
dictionary, its result is forwarded as the extracted data; and for the
adapter call as the program actually builds it, `process_single_company`
returns a recorded outcome — never an exception — for every adapter
behavior, prompt datum and scheduling. -/
theorem runner_outcome_classification (company_name model_name : String)
    (pd : PromptData) (prompt_version : String) (timeout_seconds : Nat)
    (call : Except PyExn Json) (finishedInTime : Bool)
    (run_id timestamp fresh_uuid output_dir : String) (write_ok : Bool) :
    (finishedInTime = false →
      process_single_company company_name model_name (some pd) prompt_version
          timeout_seconds call finishedInTime run_id timestamp fresh_uuid
          output_dir write_ok =
        .ok { error_message := some (timeoutMessage company_name timeout_seconds)
              extracted_data := companyOnlyData company_name
              json_output_file := none
              summary_row := makeSummaryRow (companyOnlyData company_name)
                model_name (prompt_used_text pd company_name)
                (some (timeoutMessage company_name timeout_seconds)) run_id
                fresh_uuid none }) ∧
    (∀ e : PyExn, finishedInTime = true → call = .error e →
      process_single_company company_name model_name (some pd) prompt_version
          timeout_seconds call finishedInTime run_id timestamp fresh_uuid
          output_dir write_ok =
        .ok { error_message :=
                some (extractionErrorMessage company_name e.message)
              extracted_data := companyOnlyData company_name
              json_output_file := none
              summary_row := makeSummaryRow (companyOnlyData company_name)
                model_name (prompt_used_text pd company_name)
                (some (extractionErrorMessage company_name e.message)) run_id
                fresh_uuid none }) ∧
    (∀ fields : List (String × Json), finishedInTime = true →
      call = .ok (.obj fields) →
      ∃ r : ProcessResult,
        process_single_company company_name model_name (some pd) prompt_version
            timeout_seconds call finishedInTime run_id timestamp fresh_uuid
            output_dir write_ok = .ok r ∧
        r.extracted_data = .obj fields) ∧
    (∀ (a : AdapterBehavior) (prompt_data : Option PromptData) (fin : Bool),
      (process_single_company company_name model_name prompt_data prompt_version
        timeout_seconds (actualExtractCall a company_name model_name pd) fin
        run_id timestamp fresh_uuid output_dir write_ok).isOk = true) := by
  refine ⟨?_, ?_, ?_, ?_⟩
  · intro h
    subst h
    rfl
  · intro e h1 h2
    subst h1
    subst h2
    rfl
  · intro fields h1 h2
    subst h1
    subst h2
    exact ⟨_, rfl, rfl⟩
  · intro a prompt_data fin
    rw [actualExtractCall_eq]
    exact process_error_call_isOk company_name model_name prompt_data
      prompt_version timeout_seconds _ fin run_id timestamp fresh_uuid output_dir
      write_ok

/-- Witness for the C3 theorem: a concrete run whose adapter call finished
in time with a caught exception is recorded as the provider-error outcome
carrying the exception message. -/
theorem runner_outcome_classification_witness :
    process_single_company "Acme Corp" "gpt-4o" (some samplePrompt)
        "subsidiary_research_v1" 60 (.error (.other "boom")) true "run-1"
        "20260101_000000" "fresh-uuid" "data/json_outputs" true =
      .ok { error_message := some (extractionErrorMessage "Acme Corp" "boom")
            extracted_data := companyOnlyData "Acme Corp"
            json_output_file := none
            summary_row := makeSummaryRow (companyOnlyData "Acme Corp") "gpt-4o"
              (prompt_used_text samplePrompt "Acme Corp")
              (some (extractionErrorMessage "Acme Corp" "boom")) "run-1"
              "fresh-uuid" none } :=
  (runner_outcome_classification "Acme Corp" "gpt-4o" samplePrompt
    "subsidiary_research_v1" 60 (.error (.other "boom")) true "run-1"
    "20260101_000000" "fresh-uuid" "data/json_outputs" true).2.1
    (.other "boom") rfl rfl

/-- C4: for every adapter variant, when the backend produced a textual
response that `json.loads` rejects, `extract_company_info` returns the
JSON-parsing-error dictionary — an "error"-keyed result, never the parsed
payload — and, the bodies being total functions into `Json`, no exception
escapes the adapter. -/
theorem malformed_response_reclassified_as_provider_error
    (parseJson : String → Except String Json) (company_name model_name : String) :
    (∀ (backend : OpenAIChatRequest → OpenAIBackendResult) (raw e : String),
      backend (openaiChatRequest company_name model_name) = .ok raw →
      parseJson raw = .error e →
      OpenAIModel.extract_company_info parseJson backend company_name model_name =
        .obj [("error", .str ("JSON parsing error: " ++ e))]) ∧
    (∀ (backend : GoogleRequest → GoogleBackendResult) (raw e : String),
      backend (googleGenerateRequest company_name model_name) = .ok raw →
      parseJson raw = .error e →
      GoogleAIModel.extract_company_info parseJson backend company_name model_name =
        .obj [("error", .str ("JSON parsing error: " ++ e))]) ∧
    (∀ (backend : OllamaChatRequest → OllamaApiResult) (response : Json)
        (e : String),
      backend (ollamaChatRequest company_name model_name) = .ok response →
      parseJson (ollamaRawContent response) = .error e →
      OllamaModel.extract_company_info parseJson backend company_name model_name =
        .obj [("error", .str ("JSON parsing error: " ++ e))]) := by
  refine ⟨?_, ?_, ?_⟩
  · intro backend raw e h1 h2
    simp [OpenAIModel.extract_company_info, h1, h2]
  · intro backend raw e h1 h2
    simp [GoogleAIModel.extract_company_info, h1, h2]
  · intro backend response e h1 h2
    simp [OllamaModel.extract_company_info, h1, h2]

/-- Witness for the C4 theorem: the OpenAI adapter on a non-JSON response,
with a `json.loads` that rejects it. -/
theorem malformed_response_reclassified_witness :
    OpenAIModel.extract_company_info sampleParse sampleOpenAIBackend
        "Acme Corp" "gpt-4o" =
      .obj [("error",
        .str "JSON parsing error: Expecting value: line 1 column 1 (char 0)")] :=
  (malformed_response_reclassified_as_provider_error sampleParse "Acme Corp"
    "gpt-4o").1 sampleOpenAIBackend "This response is not JSON"
    "Expecting value: line 1 column 1 (char 0)" rfl rfl

/-- C9: when the adapter call completes in time returning a dictionary with
an "error" key, the outcome carries the model-error message in the summary
row, yet the raw JSON record file is still written and its path recorded
in the row; whereas for the timeout outcome and the caught-exception
outcome no JSON record file is produced and the row's path column is
empty. -/
theorem error_key_result_still_writes_json_record (company_name model_name : String)
    (pd : PromptData) (prompt_version : String) (timeout_seconds : Nat)
    (run_id timestamp fresh_uuid output_dir : String)
    (fields : List (String × Json)) (v : Json) :
    (fields.lookup "error" = some v →
      process_single_company company_name model_name (some pd) prompt_version
          timeout_seconds (.ok (.obj fields)) true run_id timestamp fresh_uuid
          output_dir true =
        .ok { error_message := some (modelErrorMessage company_name v)
              extracted_data := .obj fields
              json_output_file :=
                some (savedJsonPath output_dir company_name run_id timestamp)
              summary_row :=
                { run_id := if run_id = "" then fresh_uuid else run_id
                  company_name :=
                    (Json.lookup (.obj fields) "company_name").getD (.str "")
                  ai_model_chosen := model_name
                  prompt_used := prompt_used_text pd company_name
                  error := modelErrorMessage company_name v
                  json_output_file :=
                    savedJsonPath output_dir company_name run_id timestamp } }) ∧
    (∀ (call : Except PyExn Json) (write_ok : Bool),
      ∃ r, process_single_company company_name model_name (some pd) prompt_version
          timeout_seconds call false run_id timestamp fresh_uuid output_dir
          write_ok = .ok r ∧
        r.json_output_file = none ∧ r.summary_row.json_output_file = "") ∧
    (∀ (e : PyExn) (write_ok : Bool),
      ∃ r, process_single_company company_name model_name (some pd) prompt_version
          timeout_seconds (.error e) true run_id timestamp fresh_uuid output_dir
          write_ok = .ok r ∧
        r.json_output_file = none ∧ r.summary_row.json_output_file = "") := by
  refine ⟨?_, ?_, ?_⟩
  · intro h
    have hsome : (fields.lookup "error").isSome = true := by rw [h]; rfl
    have hany : (fields.any (fun kv => "error" == kv.1)) = true := by
      rw [any_key_eq_lookup_isSome, hsome]
    unfold process_single_company joinedContainer run_extraction_in_thread
      pyContains
    simp only [hany, if_true]
    have hget : ((Json.obj fields).lookup "error").getD .null = v := by
      show (fields.lookup "error").getD .null = v
      rw [h]
      rfl
    simp [hget, makeSummaryRow, save_raw_json_output]
  · intro call write_ok
    exact ⟨_, rfl, rfl, rfl⟩
  · intro e write_ok
    exact ⟨_, rfl, rfl, rfl⟩

/-- Witness for the C9 theorem: a concrete completed call whose returned
dictionary carries an "error" key still records the JSON file path. -/
theorem error_key_result_witness :
    process_single_company "Acme Corp" "gpt-4o" (some samplePrompt)
        "subsidiary_research_v1" 60
        (.ok (.obj [("error", .str "model says no")])) true "run-1"
        "20260101_000000" "fresh-uuid" "data/json_outputs" true =
      .ok { error_message :=
              some (modelErrorMessage "Acme Corp" (.str "model says no"))
            extracted_data := .obj [("error", .str "model says no")]
            json_output_file :=
              some (savedJsonPath "data/json_outputs" "Acme Corp" "run-1"
                "20260101_000000")
            summary_row :=
              { run_id := if "run-1" = "" then "fresh-uuid" else "run-1"
                company_name :=
                  (Json.lookup (.obj [("error", .str "model says no")])
                    "company_name").getD (.str "")
                ai_model_chosen := "gpt-4o"
                prompt_used := prompt_used_text samplePrompt "Acme Corp"
                error := modelErrorMessage "Acme Corp" (.str "model says no")
                json_output_file :=
                  savedJsonPath "data/json_outputs" "Acme Corp" "run-1"
                    "20260101_000000" } } :=
  (error_key_result_still_writes_json_record "Acme Corp" "gpt-4o" samplePrompt
    "subsidiary_research_v1" 60 "run-1" "20260101_000000" "fresh-uuid"
    "data/json_outputs" [("error", .str "model says no")]
    (.str "model says no")).1 rfl

theorem batchRun_summary_run_id (a : AdapterBehavior) (model_name : String)
    (pd : PromptData) (prompt_version : String) (timeout_seconds : Nat)
    (run_id : String) (sched : String → Bool) (timestamp fresh_uuid : String → String)
    (output_dir : String) (write_ok : String → Bool) (rows : List String)
    (outs : List (String × ProcessResult)) (warns : List String)
    (hrid : run_id ≠ "")
    (h : batchRun (programProc a model_name pd prompt_version timeout_seconds
        run_id sched timestamp fresh_uuid output_dir write_ok)
      (read_companies_from_csv rows) = .ok (outs, warns)) :
    ∀ o ∈ outs, o.2.summary_row.run_id = run_id := by
  intro o ho
  have hmem := batchRun_mem_ok _ _ _ _ h o ho
  simp only [programProc] at hmem
  have hid := process_summary_run_id _ _ _ _ _ _ _ _ _ _ _ _ _ hmem
  rwa [if_neg hrid] at hid

/-- C1: over the batch loop of `main`, each non-empty company name yields
exactly one recorded outcome, in input order, and each empty name yields a
logged warning and no outcome (first conjunct, for any per-company
processing that never raises); the program's actual per-company processing
never raises, for every adapter behavior and scheduling (second conjunct);
and the company list read from a CSV — first-column cells stripped, blanks
dropped — contains only non-blank names, so every one of its entries is
processed (third conjunct). -/
theorem batch_records_one_outcome_per_nonblank :
    (∀ (proc : String → Except String ProcessResult) (cs : List String),
      (∀ c, (proc c).isOk = true) →
      ∃ outs warns, batchRun proc cs = .ok (outs, warns) ∧
        outs.map Prod.fst = cs.filter (fun c => c != "") ∧
        warns.length = (cs.filter (fun c => c == "")).length) ∧
    (∀ (a : AdapterBehavior) (model_name : String) (pd : PromptData)
        (prompt_version : String) (timeout_seconds : Nat) (run_id : String)
        (sched : String → Bool) (timestamp fresh_uuid : String → String)
        (output_dir : String) (write_ok : String → Bool) (c : String),
      ((programProc a model_name pd prompt_version timeout_seconds run_id sched
        timestamp fresh_uuid output_dir write_ok) c).isOk = true) ∧
    (∀ rows : List String,
      (read_companies_from_csv rows).filter (fun c => c != "") =
        read_companies_from_csv rows) := by
  refine ⟨?_, ?_, ?_⟩
  · intro proc cs hall
    exact batchRun_ok_of_all_ok proc hall cs
  · intro a model_name pd prompt_version timeout_seconds run_id sched timestamp
      fresh_uuid output_dir write_ok c
    simp only [programProc]
    rw [actualExtractCall_eq]
    exact process_error_call_isOk c model_name (some pd) prompt_version
      timeout_seconds _ (sched c) run_id (timestamp c) (fresh_uuid c) output_dir
      (write_ok c)
  · intro rows
    simp [read_companies_from_csv, List.filter_filter]

/-- Witness for the C1 theorem: the batch over the company list
["Acme Corp", "", "Globex"] with the program's per-company processing
records exactly the outcomes for "Acme Corp" and "Globex", in that order,
and one skip warning for the blank entry. -/
theorem batch_records_one_outcome_witness :
    ∃ outs warns,
      batchRun sampleProc ["Acme Corp", "", "Globex"] = .ok (outs, warns) ∧
      outs.map Prod.fst = ["Acme Corp", "Globex"] ∧ warns.length = 1 := by
  obtain ⟨outs, warns, h1, h2, h3⟩ :=
    batch_records_one_outcome_per_nonblank.1 sampleProc
      ["Acme Corp", "", "Globex"]
      (fun c => batch_records_one_outcome_per_nonblank.2.1 sampleBehavior
        "gpt-4o" samplePrompt "subsidiary_research_v1" 60 "run-1"
        (fun _ => true) (fun _ => "20260101_000000") (fun _ => "fresh-uuid")
        "data/json_outputs" (fun _ => true) c)
  refine ⟨outs, warns, h1, ?_, ?_⟩
  · rw [h2]
    decide
  · rw [h3]
    decide

/-- C6: every outcome recorded by one invocation's batch carries that
invocation's run identifier unchanged (`main` generates it once and passes
it to every `process_single_company` call, and the Excel writer keeps a
truthy run id as is); consequently two invocations whose generated
identifiers differ share no run id between their recorded outcomes. -/
theorem run_id_stable_across_invocation :
    (∀ (a : AdapterBehavior) (model_name : String) (pd : PromptData)
        (prompt_version : String) (timeout_seconds : Nat) (run_id : String)
        (sched : String → Bool) (timestamp fresh_uuid : String → String)
        (output_dir : String) (write_ok : String → Bool) (rows : List String)
        outs warns,
      run_id ≠ "" →
      batchRun (programProc a model_name pd prompt_version timeout_seconds
          run_id sched timestamp fresh_uuid output_dir write_ok)
        (read_companies_from_csv rows) = .ok (outs, warns) →
      ∀ o ∈ outs, o.2.summary_row.run_id = run_id) ∧
    (∀ (a a' : AdapterBehavior) (model_name model_name' : String)
        (pd pd' : PromptData) (prompt_version prompt_version' : String)
        (timeout_seconds timeout_seconds' : Nat) (run_id run_id' : String)
        (sched sched' : String → Bool)
        (timestamp timestamp' fresh_uuid fresh_uuid' : String → String)
        (output_dir output_dir' : String) (write_ok write_ok' : String → Bool)
        (rows rows' : List String) outs warns outs' warns',
      run_id ≠ "" → run_id' ≠ "" → run_id ≠ run_id' →
      batchRun (programProc a model_name pd prompt_version timeout_seconds
          run_id sched timestamp fresh_uuid output_dir write_ok)
        (read_companies_from_csv rows) = .ok (outs, warns) →
      batchRun (programProc a' model_name' pd' prompt_version' timeout_seconds'
          run_id' sched' timestamp' fresh_uuid' output_dir' write_ok')
        (read_companies_from_csv rows') = .ok (outs', warns') →
      ∀ o ∈ outs, ∀ o' ∈ outs',
        o.2.summary_row.run_id ≠ o'.2.summary_row.run_id) := by
  constructor
  · intro a model_name pd prompt_version timeout_seconds run_id sched timestamp
      fresh_uuid output_dir write_ok rows outs warns hrid h
    exact batchRun_summary_run_id a model_name pd prompt_version timeout_seconds
      run_id sched timestamp fresh_uuid output_dir write_ok rows outs warns hrid h
  · intro a a' model_name model_name' pd pd' prompt_version prompt_version'
      timeout_seconds timeout_seconds' run_id run_id' sched sched' timestamp
      timestamp' fresh_uuid fresh_uuid' output_dir output_dir' write_ok write_ok'
      rows rows' outs warns outs' warns' hrid hrid' hne h h' o ho o' ho'
    rw [batchRun_summary_run_id a model_name pd prompt_version timeout_seconds
        run_id sched timestamp fresh_uuid output_dir write_ok rows outs warns
        hrid h o ho,
      batchRun_summary_run_id a' model_name' pd' prompt_version' timeout_seconds'
        run_id' sched' timestamp' fresh_uuid' output_dir' write_ok' rows' outs'
        warns' hrid' h' o' ho']
    exact hne

/-- Witness for the C6 theorem: the single recorded outcome of a concrete
invocation with run id "run-1" carries "run-1" in its summary row. -/
theorem run_id_stable_witness :
    (makeSummaryRow (companyOnlyData "Acme Corp") "gpt-4o"
      (prompt_used_text samplePrompt "Acme Corp")
      (some (extractionErrorMessage "Acme Corp" extractArityErrorMessage))
      "run-1" "fresh-uuid" none).run_id = "run-1" := by
  have hb : batchRun sampleProc (read_companies_from_csv ["Acme Corp"]) =
      .ok ([("Acme Corp",
        { error_message :=
            some (extractionErrorMessage "Acme Corp" extractArityErrorMessage)
          extracted_data := companyOnlyData "Acme Corp"
          json_output_file := none
          summary_row := makeSummaryRow (companyOnlyData "Acme Corp") "gpt-4o"
            (prompt_used_text samplePrompt "Acme Corp")
            (some (extractionErrorMessage "Acme Corp" extractArityErrorMessage))
            "run-1" "fresh-uuid" none })], []) := by
    with_unfolding_all rfl
  exact run_id_stable_across_invocation.1 sampleBehavior "gpt-4o" samplePrompt
    "subsidiary_research_v1" 60 "run-1" (fun _ => true)
    (fun _ => "20260101_000000") (fun _ => "fresh-uuid") "data/json_outputs"
    (fun _ => true) ["Acme Corp"] _ _ (by decide) hb _
    (List.mem_singleton_self _)

end Siga
